import Mathlib

/-!
# Radioscope core: a shallow embedding of the wireless-frame pipeline

This file embeds, in Lean 4, the core of the `radioscope` repository:
the radiotap + 802.11 frame decoder and classifier (`src/sniffer.rs`),
the event throttling state machines (`src/events.rs`), the device-role
and MAC helpers (`src/devices.rs`), and the data-tick aggregation gate
of the consumer task (`src/main.rs`).

Modelling conventions:
- Rust byte buffers (`&[u8]`) become `List Nat`, each element a byte value.
- Rust `Instant` and `Duration` become `Nat` ticks (milliseconds); the
  ambient clock is passed explicitly (`now`) to each stateful operation.
  `Instant::duration_since` saturates at zero, as does `Nat` subtraction.
- `f32` signal gains become exact rationals (`ℚ`); the source constants
  0.2 / 0.8 are the rationals 1/5 and 4/5.
- `HashMap` becomes a total function into `Option`, updated pointwise.
- Rust strings produced by SSID decoding become an inductive `SsidText`
  (decoded text bytes, the hidden sentinel, or the hex fallback), since
  no property here depends on string rendering.
-/

set_option autoImplicit false

namespace Radioscope

/-- A MAC address: six bytes (`[u8; 6]` in the source). -/
abbrev Mac := List Nat

/-- `u16::from_le_bytes([lo, hi])`. -/
def leU16 (lo hi : Nat) : Nat := lo + 256 * hi

/-- `u16::from_be_bytes([hi, lo])`. -/
def beU16 (hi lo : Nat) : Nat := 256 * hi + lo

/-- `u32::from_le_bytes([b0, b1, b2, b3])`. -/
def leU32 (b0 b1 b2 b3 : Nat) : Nat :=
  b0 + 256 * b1 + 65536 * b2 + 16777216 * b3

/-- Raw Rust indexing `data[i]` at an index the source has already
bounds-checked; out-of-range reads are modelled separately by the
checked decoder below. -/
def byteAt (data : List Nat) (i : Nat) : Nat := data.getD i 0

/-- `b as i8`: reinterpret a byte as a signed 8-bit integer. -/
def i8OfByte (b : Nat) : Int :=
  if b < 128 then (b : Int) else (b : Int) - 256

/-! ## `src/events.rs`: event kinds, keys, window and rate limiter -/

/-- `EventKind` from `src/events.rs`. -/
inductive EventKind where
  | Beacon
  | ProbeReq
  | ProbeResp
  | Assoc
  | Deauth
  | Eapol
  | Rts
  | Cts
  | Ack
  | DataTick
deriving DecidableEq

/-- `RateKey` from `src/events.rs`: the identity granularity used for
per-entity rate limiting. -/
inductive RateKey where
  | none
  | bssid (m : Mac)
  | tx (m : Mac)
  | pair (a b : Mac)
deriving DecidableEq

/-- `PacketEvent` from `src/events.rs` (amplitude as an exact rational). -/
structure PacketEvent where
  kind : EventKind
  rate_key : RateKey
  retry : Bool
  amplitude : ℚ
  src : Option Mac
  bssid : Option Mac
deriving DecidableEq

/-- `NoiseMode` from `src/events.rs`. -/
inductive NoiseMode where
  | Crowded
  | Sparse
deriving DecidableEq

/-- `EventWindow` from `src/events.rs`: a rolling fixed-duration window
with three bucket counters, reset lazily. -/
structure EventWindow where
  start : Nat
  counts_mgmt : Nat
  counts_ctrl : Nat
  counts_data : Nat
  window : Nat
deriving DecidableEq

/-- `EventWindow::new(window)`, with `Instant::now()` injected as `now`. -/
def EventWindow.new (now window : Nat) : EventWindow :=
  { start := now, counts_mgmt := 0, counts_ctrl := 0, counts_data := 0,
    window := window }

/-- `EventWindow::refresh`: reset all counters and restart the window once
`now - start ≥ window` (`self.start.elapsed() >= self.window`). -/
def EventWindow.refresh (w : EventWindow) (now : Nat) : EventWindow :=
  if now - w.start ≥ w.window then
    { w with start := now, counts_mgmt := 0, counts_ctrl := 0,
             counts_data := 0 }
  else w

/-- `EventWindow::try_count`: after a lazy refresh, increment the bucket
selected by the event kind unless its cap is already reached. Returns the
admission verdict together with the updated window. -/
def EventWindow.try_count (w : EventWindow) (now : Nat) (kind : EventKind)
    (max_mgmt max_ctrl max_data : Nat) : Bool × EventWindow :=
  let w := w.refresh now
  match kind with
  | .Beacon | .ProbeReq | .ProbeResp | .Assoc | .Deauth | .Eapol =>
    if w.counts_mgmt ≥ max_mgmt then (false, w)
    else (true, { w with counts_mgmt := w.counts_mgmt + 1 })
  | .Rts | .Cts | .Ack =>
    if w.counts_ctrl ≥ max_ctrl then (false, w)
    else (true, { w with counts_ctrl := w.counts_ctrl + 1 })
  | .DataTick =>
    if w.counts_data ≥ max_data then (false, w)
    else (true, { w with counts_data := w.counts_data + 1 })

/-- The kinds `try_count` charges to the management bucket. -/
def mgmtBucket : EventKind → Bool
  | .Beacon | .ProbeReq | .ProbeResp | .Assoc | .Deauth | .Eapol => true
  | _ => false

/-- `RateLimiter` from `src/events.rs`: the map from `(EventKind, RateKey)`
to the last-allowed timestamp, as a total function into `Option`. -/
structure RateLimiter where
  last_seen : EventKind × RateKey → Option Nat

/-- `RateLimiter::new()`. -/
def RateLimiter.new : RateLimiter := ⟨fun _ => Option.none⟩

/-- `RateLimiter::allow(kind, key, min_gap)` with `Instant::now()` injected
as `now`: deny when less than `min_gap` elapsed since the last allowed
emission for this exact entry, otherwise record `now` and pass. -/
def RateLimiter.allow (rl : RateLimiter) (now : Nat) (kind : EventKind)
    (key : RateKey) (min_gap : Nat) : Bool × RateLimiter :=
  let entry_key := (kind, key)
  match rl.last_seen entry_key with
  | some last =>
    if now - last < min_gap then (false, rl)
    else
      (true, ⟨fun k => if k = entry_key then some now else rl.last_seen k⟩)
  | Option.none =>
      (true, ⟨fun k => if k = entry_key then some now else rl.last_seen k⟩)

/-! ## `src/devices.rs`: roles and MAC helpers -/

/-- `DeviceRole` from `src/devices.rs`. -/
inductive DeviceRole where
  | Ap
  | Client
  | Unknown
deriving DecidableEq

/-- `merge_role` from `src/devices.rs`: monotone upgrade toward `Ap`. -/
def merge_role (current new_role : DeviceRole) : DeviceRole :=
  match current, new_role with
  | .Ap, _ | _, .Ap => .Ap
  | .Client, _ | _, .Client => .Client
  | _, _ => .Unknown

/-- `role_rank` from `src/devices.rs`: sort rank of a role. -/
def role_rank : DeviceRole → Nat
  | .Ap => 0
  | .Client => 1
  | .Unknown => 2

/-- Rust `char::is_ascii_hexdigit`. -/
def isAsciiHexDigit (c : Char) : Bool :=
  ('0' ≤ c ∧ c ≤ '9') ∨ ('a' ≤ c ∧ c ≤ 'f') ∨ ('A' ≤ c ∧ c ≤ 'F')

/-- Value of an ASCII hex digit (0 for other characters). -/
def hexDigitVal (c : Char) : Nat :=
  if '0' ≤ c ∧ c ≤ '9' then c.toNat - '0'.toNat
  else if 'a' ≤ c ∧ c ≤ 'f' then c.toNat - 'a'.toNat + 10
  else if 'A' ≤ c ∧ c ≤ 'F' then c.toNat - 'A'.toNat + 10
  else 0

/-- `u8::from_str_radix(s, 16).ok()` on a two-character slice: succeeds
exactly when both characters are hex digits (two hex digits never
overflow a `u8`). -/
def hexPairVal (c1 c2 : Char) : Option Nat :=
  if isAsciiHexDigit c1 ∧ isAsciiHexDigit c2 then
    some (hexDigitVal c1 * 16 + hexDigitVal c2)
  else Option.none

/-- One uppercase hex digit, as produced by the `{:02X}` format. -/
def hexDigitU (d : Nat) : Char :=
  if d < 10 then Char.ofNat ('0'.toNat + d)
  else Char.ofNat ('A'.toNat + (d - 10))

/-- The two `{:02X}` digits of one byte. -/
def hexByteU (b : Nat) : List Char :=
  [hexDigitU (b / 16), hexDigitU (b % 16)]

/-- `format_mac` from `src/devices.rs`: six `{:02X}` bytes joined by
colons, as a character list. -/
def format_mac (mac : Mac) : List Char :=
  hexByteU (byteAt mac 0) ++ [':'] ++ hexByteU (byteAt mac 1) ++ [':'] ++
  hexByteU (byteAt mac 2) ++ [':'] ++ hexByteU (byteAt mac 3) ++ [':'] ++
  hexByteU (byteAt mac 4) ++ [':'] ++ hexByteU (byteAt mac 5)

/-- `parse_mac` from `src/devices.rs`: discard every non-hex character,
demand exactly 12 hex digits, then decode six big-endian hex byte pairs. -/
def parse_mac (input : List Char) : Option Mac :=
  let cleaned := input.filter isAsciiHexDigit
  if cleaned.length ≠ 12 then Option.none
  else do
    let b0 ← hexPairVal (cleaned.getD 0 ' ') (cleaned.getD 1 ' ')
    let b1 ← hexPairVal (cleaned.getD 2 ' ') (cleaned.getD 3 ' ')
    let b2 ← hexPairVal (cleaned.getD 4 ' ') (cleaned.getD 5 ' ')
    let b3 ← hexPairVal (cleaned.getD 6 ' ') (cleaned.getD 7 ' ')
    let b4 ← hexPairVal (cleaned.getD 8 ' ') (cleaned.getD 9 ' ')
    let b5 ← hexPairVal (cleaned.getD 10 ' ') (cleaned.getD 11 ' ')
    pure [b0, b1, b2, b3, b4, b5]

/-! ## `src/sniffer.rs`: radiotap + 802.11 decoder and frame classifier -/

/-- Rust `f32::clamp(lo, hi)` over exact rationals: `lo` if below, `hi` if
above, the value otherwise. -/
def fclamp (x lo hi : ℚ) : ℚ :=
  if x < lo then lo else if hi < x then hi else x

/-- `dbm_to_gain` from `src/sniffer.rs`, over exact rationals: normalize
`(dbm + 90) / 60` clamped to `[0, 1]`, then map to `0.2 + normalized * 0.8`. -/
def dbm_to_gain (dbm : Int) : ℚ :=
  let d : ℚ := (dbm : ℚ)
  let normalized := fclamp ((d + 90) / 60) 0 1
  1/5 + normalized * (4/5)

/-- `freq_to_channel` from `src/sniffer.rs`. -/
def freq_to_channel (freq : Nat) : Option Nat :=
  if 2412 ≤ freq ∧ freq ≤ 2472 then some ((freq - 2407) / 5)
  else if freq = 2484 then some 14
  else if 5000 ≤ freq ∧ freq ≤ 5900 then some ((freq - 5000) / 5)
  else Option.none

/-- `align` from `src/sniffer.rs`: round `offset` up to a multiple of `al`.
The source uses the bit trick `(offset + al - 1) & !(al - 1)`, which for the
power-of-two alignments it is called with (2 and 8) equals this rounding. -/
def alignUp (offset al : Nat) : Nat := (offset + al - 1) / al * al

/-- `SignalInfo` from `src/sniffer.rs`. -/
structure SignalInfo where
  gain : ℚ
  dbm : Option Int
  channel : Option Nat
deriving DecidableEq

/-- One iteration of the radiotap present-bit walk in `radiotap_signal`
(`for bit in 0..32`). The state is either `inl info` — the source already
returned early with an antenna-signal reading — or `inr (offset, channel)`,
the running byte cursor and the channel decoded so far. -/
def signal_step (data : List Nat) (rt_len present : Nat)
    (st : SignalInfo ⊕ Nat × Option Nat) (bit : Nat) :
    SignalInfo ⊕ Nat × Option Nat :=
  match st with
  | .inl info => .inl info
  | .inr (offset, channel) =>
    if present &&& (1 <<< bit) = 0 then .inr (offset, channel)
    else
      match bit with
      | 0 => .inr (alignUp offset 8 + 8, channel)
      | 1 => .inr (offset + 1, channel)
      | 2 => .inr (offset + 1, channel)
      | 3 =>
        let offset := alignUp offset 2
        let channel :=
          if offset + 4 ≤ rt_len ∧ offset + 4 ≤ data.length then
            freq_to_channel (leU16 (byteAt data offset) (byteAt data (offset + 1)))
          else channel
        .inr (offset + 4, channel)
      | 4 => .inr (alignUp offset 2 + 2, channel)
      | 5 =>
        if offset < rt_len ∧ rt_len ≤ data.length ∧ offset < data.length then
          let sig := (data.get? offset).map i8OfByte
          .inl { gain := match sig with | some s => dbm_to_gain s | Option.none => 1,
                 dbm := sig, channel := channel }
        else .inr (offset + 1, channel)
      | _ => .inr (offset, channel)

/-- `radiotap_signal` from `src/sniffer.rs`: read the 4-byte little-endian
present bitmask at offset 4 and walk its bits in ascending order; stop with
a signal reading when the antenna-signal field (bit 5) is located. -/
def radiotap_signal (data : List Nat) : Option SignalInfo :=
  if data.length < 8 then Option.none
  else
    let rt_len := leU16 (byteAt data 2) (byteAt data 3)
    if rt_len > data.length then Option.none
    else
      let present := leU32 (byteAt data 4) (byteAt data 5) (byteAt data 6)
        (byteAt data 7)
      match (List.range 32).foldl (signal_step data rt_len present)
          (.inr (8, Option.none)) with
      | .inl info => some info
      | .inr (_, channel) =>
        some { gain := 1, dbm := Option.none, channel := channel }

/-- Result of SSID decoding: Rust's `String` outcomes of `decode_ssid`,
kept symbolic (decoded text bytes, the `<hidden>` sentinel, or the
hex-encoded fallback for non-UTF-8 bytes). -/
inductive SsidText where
  | text (bytes : List Nat)
  | hidden
  | hexFallback (bytes : List Nat)
deriving DecidableEq

/-- Is `b` a UTF-8 continuation byte? (Models the Rust std validator.) -/
def utf8Cont (b : Nat) : Bool := decide (0x80 ≤ b ∧ b ≤ 0xBF)

/-- UTF-8 validity of a byte sequence, as checked by Rust
`std::str::from_utf8` (this repository calls the std validator; its
standard table is reproduced here). -/
def utf8Valid : List Nat → Bool
  | [] => true
  | b :: rest =>
    if b ≤ 0x7F then utf8Valid rest
    else if 0xC2 ≤ b ∧ b ≤ 0xDF then
      match rest with
      | b2 :: r => utf8Cont b2 && utf8Valid r
      | [] => false
    else if b = 0xE0 then
      match rest with
      | b2 :: b3 :: r =>
        decide (0xA0 ≤ b2 ∧ b2 ≤ 0xBF) && utf8Cont b3 && utf8Valid r
      | _ => false
    else if 0xE1 ≤ b ∧ b ≤ 0xEC then
      match rest with
      | b2 :: b3 :: r => utf8Cont b2 && utf8Cont b3 && utf8Valid r
      | _ => false
    else if b = 0xED then
      match rest with
      | b2 :: b3 :: r =>
        decide (0x80 ≤ b2 ∧ b2 ≤ 0x9F) && utf8Cont b3 && utf8Valid r
      | _ => false
    else if 0xEE ≤ b ∧ b ≤ 0xEF then
      match rest with
      | b2 :: b3 :: r => utf8Cont b2 && utf8Cont b3 && utf8Valid r
      | _ => false
    else if b = 0xF0 then
      match rest with
      | b2 :: b3 :: b4 :: r =>
        decide (0x90 ≤ b2 ∧ b2 ≤ 0xBF) && utf8Cont b3 && utf8Cont b4 &&
          utf8Valid r
      | _ => false
    else if 0xF1 ≤ b ∧ b ≤ 0xF3 then
      match rest with
      | b2 :: b3 :: b4 :: r =>
        utf8Cont b2 && utf8Cont b3 && utf8Cont b4 && utf8Valid r
      | _ => false
    else if b = 0xF4 then
      match rest with
      | b2 :: b3 :: b4 :: r =>
        decide (0x80 ≤ b2 ∧ b2 ≤ 0x8F) && utf8Cont b3 && utf8Cont b4 &&
          utf8Valid r
      | _ => false
    else false

/-- `decode_ssid` from `src/sniffer.rs`: empty bytes give the hidden
sentinel, valid UTF-8 gives the text, anything else the hex fallback. -/
def decode_ssid (bytes : List Nat) : Option SsidText :=
  if bytes.isEmpty then some .hidden
  else if utf8Valid bytes then some (.text bytes)
  else some (.hexFallback bytes)

/-- `mgmt_ie_start` from `src/sniffer.rs`: where tagged information
elements begin in a management frame body, per subtype. -/
def mgmt_ie_start (subtype : Nat) (payload : List Nat) : Option Nat :=
  match subtype with
  | 8 | 5 => if payload.length < 12 then Option.none else some 12
  | 4 => some 0
  | _ => Option.none

/-- The IE `while` loop of `parse_ssid`, with the remaining iteration
budget made explicit (each iteration advances `idx` by at least 2, so a
budget of `payload.length` is never exhausted first). -/
def ssid_walk (payload : List Nat) : Nat → Nat → Option SsidText
  | 0, _ => Option.none
  | fuel + 1, idx =>
    if idx + 2 ≤ payload.length then
      let id := byteAt payload idx
      let len := byteAt payload (idx + 1)
      let idx := idx + 2
      if idx + len > payload.length then Option.none
      else if id = 0 then
        let raw := (payload.drop idx).take len
        if raw.isEmpty then some .hidden else decode_ssid raw
      else ssid_walk payload fuel (idx + len)
    else Option.none

/-- `parse_ssid` from `src/sniffer.rs` (management frames only). -/
def parse_ssid (kind subtype : Nat) (payload : List Nat) : Option SsidText :=
  if kind ≠ 0 then Option.none
  else
    match mgmt_ie_start subtype payload with
    | Option.none => Option.none
    | some start =>
      if payload.length < start + 2 then Option.none
      else ssid_walk payload payload.length start

/-- The IE `while` loop of `parse_ds_channel` (same budget convention as
`ssid_walk`): find the first DS-parameter IE (tag 3) with a nonempty body. -/
def ds_walk (payload : List Nat) : Nat → Nat → Option Nat
  | 0, _ => Option.none
  | fuel + 1, idx =>
    if idx + 2 ≤ payload.length then
      let id := byteAt payload idx
      let len := byteAt payload (idx + 1)
      let idx := idx + 2
      if idx + len > payload.length then Option.none
      else if id = 3 ∧ len ≥ 1 then some (byteAt payload idx)
      else ds_walk payload fuel (idx + len)
    else Option.none

/-- `parse_ds_channel` from `src/sniffer.rs`. -/
def parse_ds_channel (subtype : Nat) (payload : List Nat) : Option Nat :=
  match mgmt_ie_start subtype payload with
  | Option.none => Option.none
  | some start => ds_walk payload payload.length start

/-- `is_eapol` from `src/sniffer.rs`: look for the LLC/SNAP EAPOL pattern
`AA AA 03 00 00 00 88 8E` at offset `hdr_len` (26 for QoS data subtypes,
24 otherwise) into the slice it is handed. -/
def is_eapol (subtype : Nat) (payload : List Nat) : Bool :=
  let hdr_len := if subtype &&& 0x08 ≠ 0 then 26 else 24
  if payload.length < hdr_len + 8 then false
  else
    let llc := payload.drop hdr_len
    if llc.length < 8 then false
    else if byteAt llc 0 ≠ 0xAA ∨ byteAt llc 1 ≠ 0xAA ∨ byteAt llc 2 ≠ 0x03
      then false
    else if byteAt llc 3 ≠ 0x00 ∨ byteAt llc 4 ≠ 0x00 ∨ byteAt llc 5 ≠ 0x00
      then false
    else
      let eth_type := beU16 (byteAt llc 6) (byteAt llc 7)
      eth_type == 0x888E

/-- `ParsedFrame` from `src/sniffer.rs` (owned bytes instead of borrowed
slices; the leading underscores of the unused Rust fields are dropped). -/
structure ParsedFrame where
  fc : Nat
  header_len : Nat
  payload : List Nat
  addr1 : Option Mac
  addr2 : Option Mac
  addr3 : Option Mac
  bssid : Option Mac
  signal_gain : ℚ
  signal_dbm : Option Int
  ssid : Option SsidText
  channel : Option Nat
deriving DecidableEq

/-- The MAC header length selected in `parse_radiotap_and_frame`
(`src/sniffer.rs` lines 399–406): 10 bytes for control frames, 26 for QoS
data frames, 24 otherwise. -/
def base_header_len (kind_bits subtype : Nat) : Nat :=
  let has_qos := kind_bits = 2 ∧ subtype &&& 0x08 ≠ 0
  if kind_bits = 1 then 10 else if has_qos then 26 else 24

/-- The BSSID-resolution table inlined in `parse_radiotap_and_frame`
(`src/sniffer.rs` lines 418–431): management frames take addr3; data
frames select by the (to-DS, from-DS) frame-control bits; control frames
resolve to none. -/
def resolve_bssid (fc : Nat) (addr1 addr2 addr3 : Option Mac) :
    Option Mac :=
  let kind_bits := (fc >>> 2) &&& 0x3
  match kind_bits with
  | 0 => addr3
  | 2 =>
    let tods := fc &&& 0x0100 ≠ 0
    let fromds := fc &&& 0x0200 ≠ 0
    if tods then (if fromds then Option.none else addr1)
    else (if fromds then addr2 else addr3)
  | _ => Option.none

/-- Rust `slice.get(a..b)`: `Some` of the subslice exactly when
`a ≤ b ∧ b ≤ len`. -/
def getRange (l : List Nat) (a b : Nat) : Option (List Nat) :=
  if a ≤ b ∧ b ≤ l.length then some ((l.drop a).take (b - a)) else Option.none

/-- `to_mac` from `src/sniffer.rs`: copy the first six bytes. -/
def to_mac (slice : List Nat) : Mac := slice.take 6

/-- `parse_radiotap_and_frame` from `src/sniffer.rs`: the frame decoder. -/
def parse_radiotap_and_frame (data : List Nat) : Option ParsedFrame :=
  if data.length < 4 then Option.none
  else
    let rt_len := leU16 (byteAt data 2) (byteAt data 3)
    if data.length < rt_len + 10 then Option.none
    else
      let frame := data.drop rt_len
      if frame.length < 10 then Option.none
      else
        let fc := leU16 (byteAt frame 0) (byteAt frame 1)
        let kind_bits := (fc >>> 2) &&& 0x3
        let subtype := (fc >>> 4) &&& 0xF
        let base_hdr_len := base_header_len kind_bits subtype
        if frame.length < base_hdr_len then Option.none
        else
          let addr1 := (getRange frame 4 10).map to_mac
          let addr2 := (getRange frame 10 16).map to_mac
          let addr3 :=
            if base_hdr_len ≥ 16 then (getRange frame 16 22).map to_mac
            else Option.none
          let bssid := resolve_bssid fc addr1 addr2 addr3
          let payload :=
            if frame.length > base_hdr_len then frame.drop base_hdr_len
            else []
          let signal := radiotap_signal data
          let signal_gain :=
            match signal with | some s => s.gain | Option.none => 1
          let signal_dbm :=
            match signal with | some s => s.dbm | Option.none => Option.none
          let rt_channel :=
            match signal with | some s => s.channel | Option.none => Option.none
          let ssid := parse_ssid kind_bits subtype payload
          let channel :=
            if kind_bits = 0 then
              match parse_ds_channel subtype payload with
              | some ds => some ds
              | Option.none => rt_channel
            else rt_channel
          some { fc := fc, header_len := base_hdr_len, payload := payload,
                 addr1 := addr1, addr2 := addr2, addr3 := addr3,
                 bssid := bssid, signal_gain := signal_gain,
                 signal_dbm := signal_dbm, ssid := ssid, channel := channel }

/-- `classify_mgmt` from `src/sniffer.rs`. -/
def classify_mgmt (subtype : Nat) (retry : Bool) (frame : ParsedFrame) :
    Option PacketEvent :=
  let amplitude := frame.signal_gain
  match subtype with
  | 8 =>
    let key := match frame.bssid.or frame.addr3 with
      | some m => RateKey.bssid m
      | Option.none => RateKey.none
    some { kind := .Beacon, rate_key := key, retry := retry,
           amplitude := amplitude, src := frame.addr2, bssid := frame.bssid }
  | 4 =>
    let key := match frame.addr2 with
      | some m => RateKey.tx m
      | Option.none => RateKey.none
    some { kind := .ProbeReq, rate_key := key, retry := retry,
           amplitude := amplitude, src := frame.addr2, bssid := frame.bssid }
  | 5 =>
    let key := match frame.bssid.or frame.addr3 with
      | some m => RateKey.bssid m
      | Option.none => RateKey.none
    some { kind := .ProbeResp, rate_key := key, retry := retry,
           amplitude := amplitude, src := frame.addr2, bssid := frame.bssid }
  | 0 | 1 | 2 | 3 =>
    let bssid := frame.bssid.or frame.addr3
    let sta := frame.addr2
    let key := match sta, bssid with
      | some s, some b => RateKey.pair s b
      | _, _ => RateKey.none
    some { kind := .Assoc, rate_key := key, retry := retry,
           amplitude := amplitude, src := frame.addr2, bssid := bssid }
  | 10 | 12 =>
    let bssid := frame.bssid.or frame.addr3
    let sta := frame.addr2
    let key := match sta, bssid with
      | some s, some b => RateKey.pair s b
      | _, _ => RateKey.none
    some { kind := .Deauth, rate_key := key, retry := retry,
           amplitude := amplitude, src := frame.addr2, bssid := bssid }
  | _ => Option.none

/-- `classify_ctrl` from `src/sniffer.rs`. -/
def classify_ctrl (subtype : Nat) (retry : Bool) (frame : ParsedFrame) :
    Option PacketEvent :=
  let amplitude := frame.signal_gain
  match subtype with
  | 11 =>
    some { kind := .Rts, rate_key := RateKey.none, retry := retry,
           amplitude := amplitude, src := frame.addr2, bssid := frame.bssid }
  | 12 =>
    some { kind := .Cts, rate_key := RateKey.none, retry := retry,
           amplitude := amplitude, src := frame.addr2, bssid := frame.bssid }
  | 13 | 9 =>
    some { kind := .Ack, rate_key := RateKey.none, retry := retry,
           amplitude := amplitude, src := frame.addr2, bssid := frame.bssid }
  | _ => Option.none

/-- `classify_data` from `src/sniffer.rs`: an EAPOL match produces an
`Eapol` event keyed by the station/BSSID pair; every other data frame is a
`DataTick`. -/
def classify_data (subtype : Nat) (retry : Bool) (frame : ParsedFrame) :
    Option PacketEvent :=
  let amplitude := frame.signal_gain
  if is_eapol subtype frame.payload then
    let bssid := frame.bssid.or frame.addr3
    let sta := frame.addr2
    let key := match sta, bssid with
      | some s, some b => RateKey.pair s b
      | _, _ => RateKey.none
    some { kind := .Eapol, rate_key := key, retry := retry,
           amplitude := amplitude, src := frame.addr2, bssid := bssid }
  else
    some { kind := .DataTick, rate_key := RateKey.none, retry := retry,
           amplitude := amplitude, src := frame.addr2, bssid := frame.bssid }

/-- `classify_frame` from `src/sniffer.rs`. -/
def classify_frame (parsed : ParsedFrame) : Option PacketEvent :=
  let kind_bits := (parsed.fc >>> 2) &&& 0x3
  let subtype := (parsed.fc >>> 4) &&& 0xF
  let retry := parsed.fc &&& 0x0800 != 0
  match kind_bits with
  | 0 => classify_mgmt subtype retry parsed
  | 1 => classify_ctrl subtype retry parsed
  | 2 => classify_data subtype retry parsed
  | _ => Option.none

/-- The capture loop's per-frame pipeline (`run` in `src/sniffer.rs`):
decode, then classify. -/
def decode_and_classify (data : List Nat) : Option PacketEvent :=
  (parse_radiotap_and_frame data).bind classify_frame

/-! ## `src/main.rs`: data-tick pre-aggregation gate of `audio_task` -/

/-- The aggregation threshold selected by the noise mode in `audio_task`. -/
def data_tick_threshold : NoiseMode → Nat
  | .Crowded => 100
  | .Sparse => 10

/-- One `DataTick` submission through the pre-aggregation gate of
`audio_task` (`src/main.rs` lines 77–87): increment the running counter;
below the threshold the event is skipped, otherwise the counter resets to
zero and the event passes. -/
def data_tick_gate (mode : NoiseMode) (data_counter : Nat) : Bool × Nat :=
  let c := data_counter + 1
  if c < data_tick_threshold mode then (false, c) else (true, 0)

/-- Submit `n` consecutive raw `DataTick` candidates to the gate, returning
how many pass and the final counter. -/
def run_data_ticks (mode : NoiseMode) : Nat → Nat → Nat × Nat
  | 0, counter => (0, counter)
  | n + 1, counter =>
    let r := data_tick_gate mode counter
    let rest := run_data_ticks mode n r.2
    ((if r.1 then 1 else 0) + rest.1, rest.2)

/-! ## Theorems -/

/-- C8: device-role merge is commutative and idempotent, orders `Ap` above
`Client` above `Unknown` regardless of argument order (in particular
`merge(Ap,Unknown) = merge(Unknown,Ap) = Ap` and
`merge(Client,Client) = Client`), and never increases the role rank of the
current role, so a tracked device's role never downgrades across
observations. -/
theorem merge_role_comm_idem_upgrade :
    (∀ a b : DeviceRole, merge_role a b = merge_role b a) ∧
    (∀ a : DeviceRole, merge_role a a = a) ∧
    merge_role .Ap .Unknown = .Ap ∧
    merge_role .Unknown .Ap = .Ap ∧
    merge_role .Client .Client = .Client ∧
    (∀ a b : DeviceRole, role_rank (merge_role a b) ≤ role_rank a) := by
  refine ⟨?_, ?_, rfl, rfl, rfl, ?_⟩
  · intro a b; cases a <;> cases b <;> rfl
  · intro a; cases a <;> rfl
  · intro a b; cases a <;> cases b <;> decide

set_option maxRecDepth 20000 in
/-- C6: in Crowded mode (threshold 100), 250 consecutive `DataTick`
candidates submitted to the pre-aggregation gate from a zero counter let
exactly 2 pass, and the running counter resets to 0 on every
pass-through. -/
theorem data_tick_aggregation_crowded :
    (run_data_ticks .Crowded 250 0).1 = 2 ∧
    (∀ c : Nat, (data_tick_gate .Crowded c).1 = true →
      (data_tick_gate .Crowded c).2 = 0) := by
  constructor
  · rfl
  · intro c h
    by_cases hc : c + 1 < data_tick_threshold .Crowded
    · simp [data_tick_gate, hc] at h
    · simp [data_tick_gate, hc]

/-- C6 witness: the 100th consecutive tick (counter 99) passes the Crowded
gate and resets the counter to 0. -/
theorem data_tick_aggregation_crowded_witness :
    (data_tick_gate .Crowded 99).1 = true ∧
    (data_tick_gate .Crowded 99).2 = 0 :=
  ⟨by decide, data_tick_aggregation_crowded.2 99 (by decide)⟩

/-- `fclamp` is monotone in its clamped argument. -/
theorem fclamp_mono (x y lo hi : ℚ) (hlohi : lo ≤ hi) (hxy : x ≤ y) :
    fclamp x lo hi ≤ fclamp y lo hi := by
  unfold fclamp
  split_ifs <;> linarith

/-- `fclamp` lands in `[lo, hi]`. -/
theorem fclamp_bounds (x lo hi : ℚ) (h : lo ≤ hi) :
    lo ≤ fclamp x lo hi ∧ fclamp x lo hi ≤ hi := by
  unfold fclamp
  split_ifs <;> constructor <;> linarith

/-- C7: the dBm-to-gain mapping equals
`0.2 + 0.8 * clamp((dBm + 90) / 60, 0, 1)`, is monotone non-decreasing,
stays within `[0.2, 1.0]` on every signed-byte input, and maps
−90 dBm to 0.2, −30 dBm to 1.0 and −60 dBm to 0.6. -/
theorem dbm_to_gain_spec :
    (∀ d : Int,
      dbm_to_gain d = 1/5 + (4/5) * fclamp (((d : ℚ) + 90) / 60) 0 1) ∧
    (∀ a b : Int, a ≤ b → dbm_to_gain a ≤ dbm_to_gain b) ∧
    (∀ d : Int, -128 ≤ d → d ≤ 127 →
      1/5 ≤ dbm_to_gain d ∧ dbm_to_gain d ≤ 1) ∧
    dbm_to_gain (-90) = 1/5 ∧ dbm_to_gain (-30) = 1 ∧
    dbm_to_gain (-60) = 3/5 := by
  refine ⟨?_, ?_, ?_, ?_, ?_, ?_⟩
  · intro d
    simp only [dbm_to_gain]
    ring
  · intro a b hab
    simp only [dbm_to_gain]
    have hcast : (a : ℚ) ≤ (b : ℚ) := by exact_mod_cast hab
    have h1 : ((a : ℚ) + 90) / 60 ≤ ((b : ℚ) + 90) / 60 := by linarith
    have h2 := fclamp_mono (((a : ℚ) + 90) / 60) (((b : ℚ) + 90) / 60) 0 1
      (by norm_num) h1
    linarith
  · intro d h1 h2
    have hc := fclamp_bounds (((d : ℚ) + 90) / 60) 0 1 (by norm_num)
    simp only [dbm_to_gain]
    constructor <;> linarith [hc.1, hc.2]
  · norm_num [dbm_to_gain, fclamp]
  · norm_num [dbm_to_gain, fclamp]
  · norm_num [dbm_to_gain, fclamp]

/-- C7 witness: monotonicity applied at −70 ≤ −50 dBm and the range bound
applied at −60 dBm. -/
theorem dbm_to_gain_spec_witness :
    (-70 : Int) ≤ -50 ∧ dbm_to_gain (-70) ≤ dbm_to_gain (-50) ∧
    ((-128 : Int) ≤ -60 ∧ (-60 : Int) ≤ 127 ∧
      (1/5 ≤ dbm_to_gain (-60) ∧ dbm_to_gain (-60) ≤ 1)) :=
  ⟨by norm_num, dbm_to_gain_spec.2.1 (-70) (-50) (by norm_num),
   by norm_num, by norm_num,
   dbm_to_gain_spec.2.2.1 (-60) (by norm_num) (by norm_num)⟩

/-- C5: for every event kind, rate key and minimum gap, the first
`RateLimiter.allow` call for a fresh `(kind, key)` passes and records the
current instant; a repeat before the gap has elapsed since the last allowed
emission is denied; a call at least the gap after the last allowed emission
passes and records the new instant. -/
theorem rate_limiter_allow_spec :
    (∀ (rl : RateLimiter) (now : Nat) (k : EventKind) (key : RateKey)
      (gap : Nat), rl.last_seen (k, key) = Option.none →
      (rl.allow now k key gap).1 = true ∧
      (rl.allow now k key gap).2.last_seen (k, key) = some now) ∧
    (∀ (rl : RateLimiter) (now : Nat) (k : EventKind) (key : RateKey)
      (gap t : Nat), rl.last_seen (k, key) = some t → now - t < gap →
      (rl.allow now k key gap).1 = false) ∧
    (∀ (rl : RateLimiter) (now : Nat) (k : EventKind) (key : RateKey)
      (gap t : Nat), rl.last_seen (k, key) = some t → gap ≤ now - t →
      (rl.allow now k key gap).1 = true ∧
      (rl.allow now k key gap).2.last_seen (k, key) = some now) := by
  refine ⟨?_, ?_, ?_⟩
  · intro rl now k key gap h
    simp [RateLimiter.allow, h]
  · intro rl now k key gap t h hgap
    simp [RateLimiter.allow, h, hgap]
  · intro rl now k key gap t h hgap
    have hlt : ¬ (now - t < gap) := by omega
    simp [RateLimiter.allow, h, hlt]

/-- C5 witness: with a fresh limiter, kind `Beacon`, key `none` and gap
100: the first call at instant 5 passes and stores 5; a repeat at instant
50 (45 elapsed) is denied; a call at instant 105 (100 elapsed) passes. -/
theorem rate_limiter_allow_spec_witness :
    RateLimiter.new.last_seen (EventKind.Beacon, RateKey.none) =
      Option.none ∧
    ((RateLimiter.new.allow 5 .Beacon .none 100).1 = true ∧
      (RateLimiter.new.allow 5 .Beacon .none 100).2.last_seen
        (EventKind.Beacon, RateKey.none) = some 5) ∧
    ((RateLimiter.new.allow 5 .Beacon .none 100).2.last_seen
        (EventKind.Beacon, RateKey.none) = some 5 ∧ 50 - 5 < 100 ∧
      ((RateLimiter.new.allow 5 .Beacon .none 100).2.allow 50 .Beacon
          .none 100).1 = false) ∧
    (100 ≤ 105 - 5 ∧
      ((RateLimiter.new.allow 5 .Beacon .none 100).2.allow 105 .Beacon
          .none 100).1 = true) :=
  ⟨rfl,
   rate_limiter_allow_spec.1 RateLimiter.new 5 .Beacon .none 100 rfl,
   ⟨rfl, by decide,
    rate_limiter_allow_spec.2.1 _ 50 .Beacon .none 100 5 rfl (by decide)⟩,
   ⟨by decide,
    (rate_limiter_allow_spec.2.2 _ 105 .Beacon .none 100 5 rfl
      (by decide)).1⟩⟩

/-- C9: a denied `RateLimiter.allow` call leaves the last-allowed map
unchanged, so a burst of denied events never postpones the next allowed
emission for that `(kind, key)`. -/
theorem rate_limiter_deny_preserves_map
    (rl : RateLimiter) (now : Nat) (k : EventKind) (key : RateKey)
    (gap : Nat) (h : (rl.allow now k key gap).1 = false) :
    (rl.allow now k key gap).2 = rl := by
  unfold RateLimiter.allow at h ⊢
  cases hlook : rl.last_seen (k, key) with
  | none => simp [hlook] at h
  | some t =>
    simp only [hlook] at h ⊢
    by_cases hgap : now - t < gap
    · simp [hgap]
    · simp [hgap] at h

/-- C9 witness: the denied repeat at instant 50 leaves the limiter state
exactly as it was after the allowed call at instant 5. -/
theorem rate_limiter_deny_preserves_map_witness :
    ((RateLimiter.new.allow 5 .Beacon .none 100).2.allow 50 .Beacon .none
      100).1 = false ∧
    ((RateLimiter.new.allow 5 .Beacon .none 100).2.allow 50 .Beacon .none
      100).2 = (RateLimiter.new.allow 5 .Beacon .none 100).2 :=
  ⟨by decide,
   rate_limiter_deny_preserves_map _ 50 .Beacon .none 100 (by decide)⟩

/-- `try_count` on a management-bucket kind charges the management
counter against its cap after the lazy refresh. -/
theorem try_count_mgmt (w : EventWindow) (now : Nat) (k : EventKind)
    (max_mgmt max_ctrl max_data : Nat) (hk : mgmtBucket k = true) :
    w.try_count now k max_mgmt max_ctrl max_data =
      (if (w.refresh now).counts_mgmt ≥ max_mgmt then (false, w.refresh now)
       else (true, { w.refresh now with
                     counts_mgmt := (w.refresh now).counts_mgmt + 1 })) := by
  cases k <;> first
    | exact absurd hk (by decide)
    | rfl

/-- C4: with management cap 2 (caps (2,1,1)), three management-kind
`try_count` calls inside one 100 ms window yield true, true, false; once
the window duration has elapsed the counters are lazily reset and a fourth
management call yields true. -/
theorem event_window_mgmt_cap_scenario
    (t0 t1 t2 t3 t4 : Nat) (k : EventKind) (hk : mgmtBucket k = true)
    (h1 : t1 - t0 < 100) (h2 : t2 - t0 < 100) (h3 : t3 - t0 < 100)
    (h4 : 100 ≤ t4 - t0) :
    ((EventWindow.new t0 100).try_count t1 k 2 1 1).1 = true ∧
    (((EventWindow.new t0 100).try_count t1 k 2 1 1).2.try_count t2 k 2 1
      1).1 = true ∧
    ((((EventWindow.new t0 100).try_count t1 k 2 1 1).2.try_count t2 k 2 1
      1).2.try_count t3 k 2 1 1).1 = false ∧
    (((((EventWindow.new t0 100).try_count t1 k 2 1 1).2.try_count t2 k 2 1
      1).2.try_count t3 k 2 1 1).2.try_count t4 k 2 1 1).1 = true := by
  have hr1 : ¬ (100 ≤ t1 - t0) := by omega
  have hr2 : ¬ (100 ≤ t2 - t0) := by omega
  have hr3 : ¬ (100 ≤ t3 - t0) := by omega
  have e1 : (EventWindow.new t0 100).try_count t1 k 2 1 1 =
      (true, ⟨t0, 1, 0, 0, 100⟩) := by
    rw [try_count_mgmt _ _ _ _ _ _ hk]
    simp [EventWindow.new, EventWindow.refresh, hr1]
  have e2 : (EventWindow.mk t0 1 0 0 100).try_count t2 k 2 1 1 =
      (true, ⟨t0, 2, 0, 0, 100⟩) := by
    rw [try_count_mgmt _ _ _ _ _ _ hk]
    simp [EventWindow.refresh, hr2]
  have e3 : (EventWindow.mk t0 2 0 0 100).try_count t3 k 2 1 1 =
      (false, ⟨t0, 2, 0, 0, 100⟩) := by
    rw [try_count_mgmt _ _ _ _ _ _ hk]
    simp [EventWindow.refresh, hr3]
  have e4 : (EventWindow.mk t0 2 0 0 100).try_count t4 k 2 1 1 =
      (true, ⟨t4, 1, 0, 0, 100⟩) := by
    rw [try_count_mgmt _ _ _ _ _ _ hk]
    simp [EventWindow.refresh, h4]
  rw [e1, show ((true, EventWindow.mk t0 1 0 0 100) :
    Bool × EventWindow).2 = EventWindow.mk t0 1 0 0 100 from rfl, e2,
    show ((true, EventWindow.mk t0 2 0 0 100) :
    Bool × EventWindow).2 = EventWindow.mk t0 2 0 0 100 from rfl, e3,
    show ((false, EventWindow.mk t0 2 0 0 100) :
    Bool × EventWindow).2 = EventWindow.mk t0 2 0 0 100 from rfl, e4]
  exact ⟨rfl, rfl, rfl, rfl⟩

/-- C4 witness: window opened at instant 0, management (`Beacon`) calls at
instants 0, 50, 99 inside the window and a fourth at instant 100. -/
theorem event_window_mgmt_cap_scenario_witness :
    mgmtBucket .Beacon = true ∧ 0 - 0 < 100 ∧ 50 - 0 < 100 ∧
    99 - 0 < 100 ∧ 100 ≤ 100 - 0 ∧
    (((EventWindow.new 0 100).try_count 0 .Beacon 2 1 1).1 = true ∧
     (((EventWindow.new 0 100).try_count 0 .Beacon 2 1 1).2.try_count 50
       .Beacon 2 1 1).1 = true ∧
     ((((EventWindow.new 0 100).try_count 0 .Beacon 2 1 1).2.try_count 50
       .Beacon 2 1 1).2.try_count 99 .Beacon 2 1 1).1 = false ∧
     (((((EventWindow.new 0 100).try_count 0 .Beacon 2 1 1).2.try_count 50
       .Beacon 2 1 1).2.try_count 99 .Beacon 2 1 1).2.try_count 100 .Beacon
       2 1 1).1 = true) :=
  ⟨by decide, by decide, by decide, by decide, by decide,
   event_window_mgmt_cap_scenario 0 0 50 99 100 .Beacon (by decide)
     (by decide) (by decide) (by decide) (by decide)⟩


theorem getD_mem_of_lt (l : List Char) (i : Nat) (d : Char)
    (h : i < l.length) : l.getD i d ∈ l := by
  rw [List.getD_eq_getElem l d h]
  exact List.getElem_mem h

theorem hexDigitU_isHex {d : Nat} (h : d < 16) :
    isAsciiHexDigit (hexDigitU d) = true := by
  interval_cases d <;> decide

theorem hexDigitVal_hexDigitU {d : Nat} (h : d < 16) :
    hexDigitVal (hexDigitU d) = d := by
  interval_cases d <;> decide

theorem hexPairVal_hexByteU {b : Nat} (h : b < 256) :
    hexPairVal (hexDigitU (b / 16)) (hexDigitU (b % 16)) = some b := by
  have h1 : b / 16 < 16 := by omega
  have h2 : b % 16 < 16 := by omega
  simp [hexPairVal, hexDigitU_isHex h1, hexDigitU_isHex h2,
        hexDigitVal_hexDigitU h1, hexDigitVal_hexDigitU h2]
  omega

theorem colon_not_hex : isAsciiHexDigit ':' = false := by decide

theorem parse_format_aux (a b c d e f : Nat) (ha : a < 256) (hb : b < 256)
    (hc : c < 256) (hd : d < 256) (he : e < 256) (hf : f < 256) :
    parse_mac (format_mac [a, b, c, d, e, f]) = some [a, b, c, d, e, f] := by
  have ha1 := hexDigitU_isHex (d := a / 16) (by omega)
  have ha2 := hexDigitU_isHex (d := a % 16) (by omega)
  have hb1 := hexDigitU_isHex (d := b / 16) (by omega)
  have hb2 := hexDigitU_isHex (d := b % 16) (by omega)
  have hc1 := hexDigitU_isHex (d := c / 16) (by omega)
  have hc2 := hexDigitU_isHex (d := c % 16) (by omega)
  have hd1 := hexDigitU_isHex (d := d / 16) (by omega)
  have hd2 := hexDigitU_isHex (d := d % 16) (by omega)
  have he1 := hexDigitU_isHex (d := e / 16) (by omega)
  have he2 := hexDigitU_isHex (d := e % 16) (by omega)
  have hf1 := hexDigitU_isHex (d := f / 16) (by omega)
  have hf2 := hexDigitU_isHex (d := f % 16) (by omega)
  simp [parse_mac, format_mac, hexByteU, byteAt, List.filter_append,
        List.filter_cons, ha1, ha2, hb1, hb2, hc1, hc2, hd1, hd2, he1, he2,
        hf1, hf2, colon_not_hex, hexPairVal_hexByteU, ha, hb, hc, hd, he, hf]

theorem parse_mac_isSome_iff (s : List Char) :
    (parse_mac s).isSome = true ↔
      (s.filter isAsciiHexDigit).length = 12 := by
  by_cases h12 : (s.filter isAsciiHexDigit).length = 12
  · have hmem : ∀ i : Nat, i < 12 →
        isAsciiHexDigit ((s.filter isAsciiHexDigit).getD i ' ') = true := by
      intro i hi
      have hm : (s.filter isAsciiHexDigit).getD i ' ' ∈
          s.filter isAsciiHexDigit := getD_mem_of_lt _ _ _ (by omega)
      exact (List.mem_filter.mp hm).2
    have hmem2 : ∀ i : Nat, i < 12 →
        isAsciiHexDigit (((s.filter isAsciiHexDigit)[i]?).getD ' ') = true := by
      intro i hi
      have := hmem i hi
      rwa [List.getD, List.get?_eq_getElem?] at this
    simp only [parse_mac, h12]
    simp [hexPairVal, hmem 0 (by norm_num), hmem 1 (by norm_num),
          hmem 2 (by norm_num), hmem 3 (by norm_num), hmem 4 (by norm_num),
          hmem 5 (by norm_num), hmem 6 (by norm_num), hmem 7 (by norm_num),
          hmem 8 (by norm_num), hmem 9 (by norm_num), hmem 10 (by norm_num),
          hmem 11 (by norm_num), hmem2 0 (by norm_num), hmem2 1 (by norm_num),
          hmem2 2 (by norm_num), hmem2 3 (by norm_num), hmem2 4 (by norm_num),
          hmem2 5 (by norm_num), hmem2 6 (by norm_num), hmem2 7 (by norm_num),
          hmem2 8 (by norm_num), hmem2 9 (by norm_num), hmem2 10 (by norm_num),
          hmem2 11 (by norm_num)]
  · simp [parse_mac, h12]

/-- C10: MAC formatting and parsing round-trip for every 6-byte MAC, and
`parse_mac` succeeds exactly when the input contains exactly 12 ASCII hex
digits after discarding every non-hex character (so separator style does
not matter). -/
theorem mac_format_parse_roundtrip :
    (∀ m : Mac, m.length = 6 → (∀ x ∈ m, x < 256) →
      parse_mac (format_mac m) = some m) ∧
    (∀ s : List Char, (parse_mac s).isSome = true ↔
      (s.filter isAsciiHexDigit).length = 12) := by
  constructor
  · intro m hm hx
    rcases m with _ | ⟨a, _ | ⟨b, _ | ⟨c, _ | ⟨d, _ | ⟨e, _ | ⟨f, rest⟩⟩⟩⟩⟩⟩
    · simp at hm
    · simp at hm
    · simp at hm
    · simp at hm
    · simp at hm
    · simp at hm
    · cases rest with
      | nil =>
        exact parse_format_aux a b c d e f (hx a (by simp)) (hx b (by simp))
          (hx c (by simp)) (hx d (by simp)) (hx e (by simp)) (hx f (by simp))
      | cons g t => simp at hm
  · exact parse_mac_isSome_iff

/-- C10 witness: round-trip evaluated at the concrete MAC
`00:11:FF:AA:12:34`. -/
theorem mac_format_parse_roundtrip_witness :
    (([0, 17, 255, 170, 18, 52] : Mac).length = 6 ∧
      (∀ x ∈ ([0, 17, 255, 170, 18, 52] : Mac), x < 256) ∧
      parse_mac (format_mac [0, 17, 255, 170, 18, 52]) =
        some [0, 17, 255, 170, 18, 52]) ∧
    ((format_mac [0, 17, 255, 170, 18, 52]).filter
        isAsciiHexDigit).length = 12 ∧
    (parse_mac (format_mac [0, 17, 255, 170, 18, 52])).isSome = true :=
  ⟨⟨by decide, by decide,
    mac_format_parse_roundtrip.1 _ (by decide) (by decide)⟩,
   by decide,
   (mac_format_parse_roundtrip.2 _).mpr (by decide)⟩


/-- The LLC/SNAP EAPOL pattern the spec names: `AA AA 03 00 00 00 88 8E`. -/
def eapol_llc : List Nat := [0xAA, 0xAA, 0x03, 0x00, 0x00, 0x00, 0x88, 0x8E]

/-- A minimal 8-byte radiotap header (version 0, length 8, empty present
bitmask). -/
def minimal_radiotap : List Nat := [0, 0, 8, 0, 0, 0, 0, 0]

/-- A 24-byte non-QoS data-frame MAC header: frame control `0x0008`
(type = data, subtype 0, no to-DS/from-DS), duration, addr1/addr2/addr3,
sequence control. -/
def data_mac_header : List Nat :=
  [0x08, 0x00, 0, 0] ++
  [0x11, 0x11, 0x11, 0x11, 0x11, 0x11] ++
  [0x22, 0x22, 0x22, 0x22, 0x22, 0x22] ++
  [0x33, 0x33, 0x33, 0x33, 0x33, 0x33] ++
  [0, 0]

/-- A captured non-QoS data frame whose bytes at the MAC-header offset
(24 bytes from the start of the MAC frame) are exactly the EAPOL LLC/SNAP
pattern — a well-formed EAPOL frame per 802.11. -/
def frame_eapol_at_header : List Nat :=
  minimal_radiotap ++ data_mac_header ++ eapol_llc

/-- The same data frame, but with the EAPOL LLC/SNAP pattern placed 24
bytes into the *payload* (i.e. 48 bytes from the start of the MAC frame),
after 24 bytes of padding. -/
def frame_eapol_at_double_offset : List Nat :=
  minimal_radiotap ++ data_mac_header ++ List.replicate 24 0x00 ++ eapol_llc

set_option maxRecDepth 100000 in
/-- C1 (code bug demonstration): the claim — and 802.11 — places the EAPOL
LLC/SNAP header at the frame's MAC-header offset (24 bytes for non-QoS
data), but `classify_data` hands `is_eapol` the payload that already
starts *after* the MAC header, and `is_eapol` skips `hdr_len` bytes again.
So a genuine EAPOL frame (pattern at MAC offset 24) classifies as
`DataTick`, while the pattern at double the offset (payload offset 24)
classifies as `Eapol`. -/
theorem eapol_offset_code_bug :
    (decode_and_classify frame_eapol_at_header).map PacketEvent.kind =
      some EventKind.DataTick ∧
    (decode_and_classify frame_eapol_at_double_offset).map PacketEvent.kind =
      some EventKind.Eapol :=
  ⟨rfl, rfl⟩


/-- Every successfully decoded frame stores the BSSID computed by the
resolution table from its own frame-control word and addresses. -/
theorem parse_bssid_eq_resolve (data : List Nat) (pf : ParsedFrame)
    (h : parse_radiotap_and_frame data = some pf) :
    pf.bssid = resolve_bssid pf.fc pf.addr1 pf.addr2 pf.addr3 := by
  unfold parse_radiotap_and_frame at h
  dsimp only at h
  split_ifs at h <;> try exact Option.noConfusion h
  all_goals
    obtain rfl := (Option.some.inj h).symm
  all_goals rfl

/-- The resolution table, spelled out: type 0 (management) takes addr3,
type 1 (control) resolves to none, type 2 (data) selects by the
(to-DS, from-DS) bits as (0,0) to addr3, (0,1) to addr2, (1,0) to addr1,
(1,1) to none. -/
theorem resolve_bssid_table (fc : Nat) (a1 a2 a3 : Option Mac) :
    ((fc >>> 2) &&& 0x3 = 0 → resolve_bssid fc a1 a2 a3 = a3) ∧
    ((fc >>> 2) &&& 0x3 = 1 → resolve_bssid fc a1 a2 a3 = Option.none) ∧
    ((fc >>> 2) &&& 0x3 = 2 →
      resolve_bssid fc a1 a2 a3 =
        (if fc &&& 0x0100 ≠ 0 then
          (if fc &&& 0x0200 ≠ 0 then Option.none else a1)
        else (if fc &&& 0x0200 ≠ 0 then a2 else a3))) := by
  refine ⟨?_, ?_, ?_⟩ <;> intro hk <;> simp [resolve_bssid, hk]

/-- C3: for every successfully decoded frame, the resolved BSSID follows
the table: management frames take addr3; data frames select by the
(to-DS, from-DS) frame-control bits as (0,0) to addr3, (0,1) to addr2,
(1,0) to addr1, (1,1) to none; control frames resolve to none. -/
theorem parse_bssid_table (data : List Nat) (pf : ParsedFrame)
    (h : parse_radiotap_and_frame data = some pf) :
    ((pf.fc >>> 2) &&& 0x3 = 0 → pf.bssid = pf.addr3) ∧
    ((pf.fc >>> 2) &&& 0x3 = 1 → pf.bssid = Option.none) ∧
    ((pf.fc >>> 2) &&& 0x3 = 2 →
      pf.bssid =
        (if pf.fc &&& 0x0100 ≠ 0 then
          (if pf.fc &&& 0x0200 ≠ 0 then Option.none else pf.addr1)
        else (if pf.fc &&& 0x0200 ≠ 0 then pf.addr2 else pf.addr3))) := by
  rw [parse_bssid_eq_resolve data pf h]
  exact resolve_bssid_table pf.fc pf.addr1 pf.addr2 pf.addr3

/-- A trivially empty parsed frame, used as a `getD` fallback when naming
the result of a successful concrete parse. -/
def empty_parsed_frame : ParsedFrame :=
  { fc := 0, header_len := 0, payload := [], addr1 := Option.none,
    addr2 := Option.none, addr3 := Option.none, bssid := Option.none,
    signal_gain := 1, signal_dbm := Option.none, ssid := Option.none,
    channel := Option.none }

/-- The parse result of `data`, or the empty frame when unparseable. -/
def parsed_or_empty (data : List Nat) : ParsedFrame :=
  (parse_radiotap_and_frame data).getD empty_parsed_frame

/-- A 24-byte MAC frame body with the given frame-control bytes and
addr1/addr2/addr3 (01…, 02…, 03…). -/
def fixture_body (fc_lo fc_hi : Nat) : List Nat :=
  [fc_lo, fc_hi, 0, 0] ++
  [0x01, 0x01, 0x01, 0x01, 0x01, 0x01] ++
  [0x02, 0x02, 0x02, 0x02, 0x02, 0x02] ++
  [0x03, 0x03, 0x03, 0x03, 0x03, 0x03] ++
  [0, 0]

def fixture_mgmt : List Nat := minimal_radiotap ++ fixture_body 0x80 0x00
def fixture_ctrl : List Nat :=
  minimal_radiotap ++ ([0xB4, 0x00, 0, 0] ++
    [0x01, 0x01, 0x01, 0x01, 0x01, 0x01] ++
    [0x02, 0x02, 0x02, 0x02, 0x02, 0x02])
def fixture_ds00 : List Nat := minimal_radiotap ++ fixture_body 0x08 0x00
def fixture_ds01 : List Nat := minimal_radiotap ++ fixture_body 0x08 0x02
def fixture_ds10 : List Nat := minimal_radiotap ++ fixture_body 0x08 0x01
def fixture_ds11 : List Nat := minimal_radiotap ++ fixture_body 0x08 0x03

set_option maxRecDepth 100000 in
/-- C3 witness: resolution evaluated on fixed fixture frames — one
management, one control, and the four (to-DS, from-DS) data
combinations. -/
theorem parse_bssid_table_witness :
    (parse_radiotap_and_frame fixture_mgmt =
        some (parsed_or_empty fixture_mgmt) ∧
      (parsed_or_empty fixture_mgmt).fc >>> 2 &&& 0x3 = 0 ∧
      (parsed_or_empty fixture_mgmt).bssid =
        (parsed_or_empty fixture_mgmt).addr3) ∧
    (parse_radiotap_and_frame fixture_ctrl =
        some (parsed_or_empty fixture_ctrl) ∧
      (parsed_or_empty fixture_ctrl).fc >>> 2 &&& 0x3 = 1 ∧
      (parsed_or_empty fixture_ctrl).bssid = Option.none) ∧
    (parse_radiotap_and_frame fixture_ds00 =
        some (parsed_or_empty fixture_ds00) ∧
      (parsed_or_empty fixture_ds00).fc >>> 2 &&& 0x3 = 2 ∧
      (parsed_or_empty fixture_ds00).bssid =
        (parsed_or_empty fixture_ds00).addr3) ∧
    (parse_radiotap_and_frame fixture_ds01 =
        some (parsed_or_empty fixture_ds01) ∧
      (parsed_or_empty fixture_ds01).fc >>> 2 &&& 0x3 = 2 ∧
      (parsed_or_empty fixture_ds01).bssid =
        (parsed_or_empty fixture_ds01).addr2) ∧
    (parse_radiotap_and_frame fixture_ds10 =
        some (parsed_or_empty fixture_ds10) ∧
      (parsed_or_empty fixture_ds10).fc >>> 2 &&& 0x3 = 2 ∧
      (parsed_or_empty fixture_ds10).bssid =
        (parsed_or_empty fixture_ds10).addr1) ∧
    (parse_radiotap_and_frame fixture_ds11 =
        some (parsed_or_empty fixture_ds11) ∧
      (parsed_or_empty fixture_ds11).fc >>> 2 &&& 0x3 = 2 ∧
      (parsed_or_empty fixture_ds11).bssid = Option.none) :=
  ⟨⟨rfl, rfl, (parse_bssid_table fixture_mgmt _ rfl).1 rfl⟩,
   ⟨rfl, rfl, (parse_bssid_table fixture_ctrl _ rfl).2.1 rfl⟩,
   ⟨rfl, rfl, ((parse_bssid_table fixture_ds00 _ rfl).2.2 rfl).trans rfl⟩,
   ⟨rfl, rfl, ((parse_bssid_table fixture_ds01 _ rfl).2.2 rfl).trans rfl⟩,
   ⟨rfl, rfl, ((parse_bssid_table fixture_ds10 _ rfl).2.2 rfl).trans rfl⟩,
   ⟨rfl, rfl, ((parse_bssid_table fixture_ds11 _ rfl).2.2 rfl).trans rfl⟩⟩


/-! ## Checked decoder

The decoder above mirrors the source's raw indexing with total `getD`
reads. To show the source never indexes out of bounds, the decoder is
repeated here with every raw read and slice made *checked*: the outer
`Option` is `none` exactly when some access would have been out of
bounds (a Rust panic). The equivalence theorem `parse_chk_eq` states the
checked decoder always succeeds and computes the same result. -/

/-- Checked Rust indexing `data[i]`: `none` when out of bounds. -/
def byteAtChk (data : List Nat) (i : Nat) : Option Nat := data.get? i

/-- Checked Rust slice `&l[a..]`: defined only when `a ≤ len`. -/
def dropChk (l : List Nat) (a : Nat) : Option (List Nat) :=
  if a ≤ l.length then some (l.drop a) else Option.none

/-- `signal_step` with checked reads (only the channel-frequency field,
bit 3, reads raw; the antenna-signal field already uses a safe `get`). -/
def signal_step_chk (data : List Nat) (rt_len present : Nat)
    (st : Option (SignalInfo ⊕ Nat × Option Nat)) (bit : Nat) :
    Option (SignalInfo ⊕ Nat × Option Nat) :=
  match st with
  | Option.none => Option.none
  | some (.inl info) => some (.inl info)
  | some (.inr (offset, channel)) =>
    if present &&& (1 <<< bit) = 0 then some (.inr (offset, channel))
    else
      match bit with
      | 0 => some (.inr (alignUp offset 8 + 8, channel))
      | 1 => some (.inr (offset + 1, channel))
      | 2 => some (.inr (offset + 1, channel))
      | 3 =>
        let offset := alignUp offset 2
        if offset + 4 ≤ rt_len ∧ offset + 4 ≤ data.length then
          match byteAtChk data offset, byteAtChk data (offset + 1) with
          | some lo, some hi =>
            some (.inr (offset + 4, freq_to_channel (leU16 lo hi)))
          | _, _ => Option.none
        else some (.inr (offset + 4, channel))
      | 4 => some (.inr (alignUp offset 2 + 2, channel))
      | 5 =>
        if offset < rt_len ∧ rt_len ≤ data.length ∧ offset < data.length
          then
          let sig := (data.get? offset).map i8OfByte
          some (.inl { gain := match sig with
                         | some s => dbm_to_gain s
                         | Option.none => 1,
                       dbm := sig, channel := channel })
        else some (.inr (offset + 1, channel))
      | _ => some (.inr (offset, channel))

/-- `radiotap_signal` with checked reads. -/
def radiotap_signal_chk (data : List Nat) : Option (Option SignalInfo) :=
  if data.length < 8 then some Option.none
  else
    match byteAtChk data 2, byteAtChk data 3 with
    | some b2, some b3 =>
      let rt_len := leU16 b2 b3
      if rt_len > data.length then some Option.none
      else
        match byteAtChk data 4, byteAtChk data 5, byteAtChk data 6,
            byteAtChk data 7 with
        | some b4, some b5, some b6, some b7 =>
          let present := leU32 b4 b5 b6 b7
          match (List.range 32).foldl (signal_step_chk data rt_len present)
              (some (.inr (8, Option.none))) with
          | some (.inl info) => some (some info)
          | some (.inr (_, channel)) =>
            some (some { gain := 1, dbm := Option.none, channel := channel })
          | Option.none => Option.none
        | _, _, _, _ => Option.none
    | _, _ => Option.none

/-- `ssid_walk` with checked reads and slices. -/
def ssid_walk_chk (payload : List Nat) :
    Nat → Nat → Option (Option SsidText)
  | 0, _ => some Option.none
  | fuel + 1, idx =>
    if idx + 2 ≤ payload.length then
      match byteAtChk payload idx, byteAtChk payload (idx + 1) with
      | some id, some len =>
        if idx + 2 + len > payload.length then some Option.none
        else if id = 0 then
          match getRange payload (idx + 2) (idx + 2 + len) with
          | some raw =>
            some (if raw.isEmpty then some SsidText.hidden
                  else decode_ssid raw)
          | Option.none => Option.none
        else ssid_walk_chk payload fuel (idx + 2 + len)
      | _, _ => Option.none
    else some Option.none

/-- `parse_ssid` with checked reads. -/
def parse_ssid_chk (kind subtype : Nat) (payload : List Nat) :
    Option (Option SsidText) :=
  if kind ≠ 0 then some Option.none
  else
    match mgmt_ie_start subtype payload with
    | Option.none => some Option.none
    | some start =>
      if payload.length < start + 2 then some Option.none
      else ssid_walk_chk payload payload.length start

/-- `ds_walk` with checked reads. -/
def ds_walk_chk (payload : List Nat) : Nat → Nat → Option (Option Nat)
  | 0, _ => some Option.none
  | fuel + 1, idx =>
    if idx + 2 ≤ payload.length then
      match byteAtChk payload idx, byteAtChk payload (idx + 1) with
      | some id, some len =>
        if idx + 2 + len > payload.length then some Option.none
        else if id = 3 ∧ len ≥ 1 then
          match byteAtChk payload (idx + 2) with
          | some b => some (some b)
          | Option.none => Option.none
        else ds_walk_chk payload fuel (idx + 2 + len)
      | _, _ => Option.none
    else some Option.none

/-- `parse_ds_channel` with checked reads. -/
def parse_ds_channel_chk (subtype : Nat) (payload : List Nat) :
    Option (Option Nat) :=
  match mgmt_ie_start subtype payload with
  | Option.none => some Option.none
  | some start => ds_walk_chk payload payload.length start

/-- `parse_radiotap_and_frame` with every raw read and slice checked. -/
def parse_radiotap_and_frame_chk (data : List Nat) :
    Option (Option ParsedFrame) :=
  if data.length < 4 then some Option.none
  else
    match byteAtChk data 2, byteAtChk data 3 with
    | some b2, some b3 =>
      let rt_len := leU16 b2 b3
      if data.length < rt_len + 10 then some Option.none
      else
        match dropChk data rt_len with
        | Option.none => Option.none
        | some frame =>
          if frame.length < 10 then some Option.none
          else
            match byteAtChk frame 0, byteAtChk frame 1 with
            | some f0, some f1 =>
              let fc := leU16 f0 f1
              let kind_bits := (fc >>> 2) &&& 0x3
              let subtype := (fc >>> 4) &&& 0xF
              let base_hdr_len := base_header_len kind_bits subtype
              if frame.length < base_hdr_len then some Option.none
              else
                let addr1 := (getRange frame 4 10).map to_mac
                let addr2 := (getRange frame 10 16).map to_mac
                let addr3 :=
                  if base_hdr_len ≥ 16 then (getRange frame 16 22).map to_mac
                  else Option.none
                let bssid := resolve_bssid fc addr1 addr2 addr3
                match (if frame.length > base_hdr_len then
                    dropChk frame base_hdr_len else some []) with
                | Option.none => Option.none
                | some payload =>
                  match radiotap_signal_chk data with
                  | Option.none => Option.none
                  | some signal =>
                    match parse_ssid_chk kind_bits subtype payload with
                    | Option.none => Option.none
                    | some ssid =>
                      match (if kind_bits = 0 then
                          parse_ds_channel_chk subtype payload
                        else some Option.none) with
                      | Option.none => Option.none
                      | some ds =>
                        let signal_gain :=
                          match signal with
                          | some s => s.gain
                          | Option.none => 1
                        let signal_dbm :=
                          match signal with
                          | some s => s.dbm
                          | Option.none => Option.none
                        let rt_channel :=
                          match signal with
                          | some s => s.channel
                          | Option.none => Option.none
                        let channel :=
                          if kind_bits = 0 then
                            match ds with
                            | some d => some d
                            | Option.none => rt_channel
                          else rt_channel
                        some (some
                          { fc := fc, header_len := base_hdr_len,
                            payload := payload, addr1 := addr1,
                            addr2 := addr2, addr3 := addr3, bssid := bssid,
                            signal_gain := signal_gain,
                            signal_dbm := signal_dbm, ssid := ssid,
                            channel := channel })
            | _, _ => Option.none
    | _, _ => Option.none


/-- A checked read at an in-bounds index succeeds with the raw value. -/
theorem byteAtChk_eq {data : List Nat} {i : Nat} (h : i < data.length) :
    byteAtChk data i = some (byteAt data i) := by
  simp [byteAtChk, byteAt, List.get?_eq_getElem?,
        List.getElem?_eq_getElem h, List.getD_eq_getElem data 0 h]

/-- A fold whose checked step never fails equals `some` of the plain
fold. -/
theorem foldl_chk {α β : Type} (f : α → β → α) (g : Option α → β → Option α)
    (hg : ∀ a b, g (some a) b = some (f a b)) :
    ∀ (l : List β) (a : α), l.foldl g (some a) = some (l.foldl f a)
  | [], _ => rfl
  | b :: l, a => by
    rw [List.foldl_cons, List.foldl_cons, hg, foldl_chk f g hg l]

/-- Every radiotap walk step is access-safe: the checked step never
fails and agrees with the plain step. -/
theorem signal_step_chk_eq (data : List Nat) (rt_len present : Nat)
    (st : SignalInfo ⊕ Nat × Option Nat) (bit : Nat) :
    signal_step_chk data rt_len present (some st) bit =
      some (signal_step data rt_len present st bit) := by
  match st with
  | .inl info => rfl
  | .inr (offset, channel) =>
    simp only [signal_step_chk, signal_step]
    split
    · rfl
    · match bit with
      | 0 => rfl
      | 1 => rfl
      | 2 => rfl
      | 4 => rfl
      | 3 =>
        dsimp only
        split
        case isTrue hb =>
          rw [byteAtChk_eq (show alignUp offset 2 < data.length by omega),
              byteAtChk_eq (show alignUp offset 2 + 1 < data.length by omega)]
        case isFalse hb => rfl
      | 5 =>
        dsimp only
        split <;> rfl
      | (n + 6) => rfl

/-- `radiotap_signal` is access-safe on every input. -/
theorem radiotap_signal_chk_eq (data : List Nat) :
    radiotap_signal_chk data = some (radiotap_signal data) := by
  unfold radiotap_signal_chk radiotap_signal
  split
  · rfl
  case isFalse hlen =>
    rw [byteAtChk_eq (show 2 < data.length by omega),
        byteAtChk_eq (show 3 < data.length by omega)]
    dsimp only
    split
    · rfl
    case isFalse hrt =>
      rw [byteAtChk_eq (show 4 < data.length by omega),
          byteAtChk_eq (show 5 < data.length by omega),
          byteAtChk_eq (show 6 < data.length by omega),
          byteAtChk_eq (show 7 < data.length by omega)]
      dsimp only
      rw [foldl_chk _ _ (signal_step_chk_eq data _ _)]
      cases hres : (List.range 32).foldl
          (signal_step data (leU16 (byteAt data 2) (byteAt data 3))
            (leU32 (byteAt data 4) (byteAt data 5) (byteAt data 6)
              (byteAt data 7)))
          (.inr (8, Option.none)) with
      | inl info => rfl
      | inr p => rfl

/-- The SSID IE walk is access-safe on every input. -/
theorem ssid_walk_chk_eq (payload : List Nat) :
    ∀ (fuel idx : Nat),
      ssid_walk_chk payload fuel idx = some (ssid_walk payload fuel idx)
  | 0, _ => rfl
  | fuel + 1, idx => by
    unfold ssid_walk_chk ssid_walk
    split
    case isTrue hle =>
      rw [byteAtChk_eq (show idx < payload.length by omega),
          byteAtChk_eq (show idx + 1 < payload.length by omega)]
      dsimp only
      split
      · rfl
      case isFalse hgt =>
        split
        case isTrue hid =>
          rw [getRange, if_pos (by constructor <;> omega)]
          dsimp only
          rw [Nat.add_sub_cancel_left]
        case isFalse hid => exact ssid_walk_chk_eq payload fuel _
    · rfl

/-- The DS-channel IE walk is access-safe on every input. -/
theorem ds_walk_chk_eq (payload : List Nat) :
    ∀ (fuel idx : Nat),
      ds_walk_chk payload fuel idx = some (ds_walk payload fuel idx)
  | 0, _ => rfl
  | fuel + 1, idx => by
    unfold ds_walk_chk ds_walk
    split
    case isTrue hle =>
      rw [byteAtChk_eq (show idx < payload.length by omega),
          byteAtChk_eq (show idx + 1 < payload.length by omega)]
      dsimp only
      split
      · rfl
      case isFalse hgt =>
        split
        case isTrue hid =>
          rw [byteAtChk_eq (show idx + 2 < payload.length by omega)]
        case isFalse hid => exact ds_walk_chk_eq payload fuel _
    · rfl

/-- `parse_ssid` is access-safe on every input. -/
theorem parse_ssid_chk_eq (kind subtype : Nat) (payload : List Nat) :
    parse_ssid_chk kind subtype payload =
      some (parse_ssid kind subtype payload) := by
  unfold parse_ssid_chk parse_ssid
  split
  · rfl
  · cases mgmt_ie_start subtype payload with
    | none => rfl
    | some start =>
      dsimp only
      split
      · rfl
      · exact ssid_walk_chk_eq payload payload.length start

/-- `parse_ds_channel` is access-safe on every input. -/
theorem parse_ds_channel_chk_eq (subtype : Nat) (payload : List Nat) :
    parse_ds_channel_chk subtype payload =
      some (parse_ds_channel subtype payload) := by
  unfold parse_ds_channel_chk parse_ds_channel
  cases mgmt_ie_start subtype payload with
  | none => rfl
  | some start => exact ds_walk_chk_eq payload payload.length start

/-- The frame decoder is access-safe on every input: the checked decoder
never reports an out-of-bounds read and agrees with the plain decoder. -/
theorem parse_chk_eq (data : List Nat) :
    parse_radiotap_and_frame_chk data =
      some (parse_radiotap_and_frame data) := by
  unfold parse_radiotap_and_frame_chk parse_radiotap_and_frame
  split
  · rfl
  case isFalse h4 =>
    rw [byteAtChk_eq (show 2 < data.length by omega),
        byteAtChk_eq (show 3 < data.length by omega)]
    dsimp only
    split
    · rfl
    case isFalse h10 =>
      rw [dropChk, if_pos (show leU16 (byteAt data 2) (byteAt data 3) ≤
        data.length by omega)]
      dsimp only
      split
      · rfl
      case isFalse hf10 =>
        rw [byteAtChk_eq (show 0 <
              (data.drop (leU16 (byteAt data 2) (byteAt data 3))).length
              by omega),
            byteAtChk_eq (show 1 <
              (data.drop (leU16 (byteAt data 2) (byteAt data 3))).length
              by omega)]
        dsimp only
        split
        · rfl
        case isFalse hbase =>
          generalize hfr : List.drop (leU16 (byteAt data 2) (byteAt data 3))
            data = fr at hbase ⊢
          generalize hfc : leU16 (byteAt fr 0) (byteAt fr 1) = fc at hbase ⊢
          generalize hkb : fc >>> 2 &&& 3 = kb at hbase ⊢
          generalize hst : fc >>> 4 &&& 15 = stp at hbase ⊢
          generalize hB : base_header_len kb stp = B at hbase ⊢
          by_cases hp : fr.length > B
          · simp only [if_pos hp]
            rw [dropChk, if_pos (show B ≤ fr.length by omega)]
            try dsimp only
            rw [radiotap_signal_chk_eq]
            try dsimp only
            rw [parse_ssid_chk_eq]
            try dsimp only
            by_cases hk0 : kb = 0
            · simp only [if_pos hk0]
              rw [parse_ds_channel_chk_eq]
            · simp only [if_neg hk0]
          · simp only [if_neg hp]
            try dsimp only
            rw [radiotap_signal_chk_eq]
            try dsimp only
            rw [parse_ssid_chk_eq]
            try dsimp only
            by_cases hk0 : kb = 0
            · simp only [if_pos hk0]
              rw [parse_ds_channel_chk_eq]
            · simp only [if_neg hk0]

/-- C2: the frame decoder is total (a Lean function) and never reads out
of bounds (the fully checked decoder always succeeds and agrees with it);
in particular every input shorter than 4 bytes, and every input whose
2-byte little-endian radiotap length at offset 2 exceeds the buffer
length, decodes to `none`. -/
theorem frame_decoder_total_and_safe :
    (∀ data : List Nat,
      parse_radiotap_and_frame_chk data =
        some (parse_radiotap_and_frame data)) ∧
    (∀ data : List Nat, data.length < 4 →
      parse_radiotap_and_frame data = Option.none) ∧
    (∀ data : List Nat,
      data.length < leU16 (byteAt data 2) (byteAt data 3) →
      parse_radiotap_and_frame data = Option.none) := by
  refine ⟨parse_chk_eq, ?_, ?_⟩
  · intro data h
    unfold parse_radiotap_and_frame
    rw [if_pos h]
  · intro data h
    unfold parse_radiotap_and_frame
    by_cases h4 : data.length < 4
    · rw [if_pos h4]
    · rw [if_neg h4]
      dsimp only
      rw [if_pos (by omega)]

/-- C2 witness: the 3-byte input `[0, 0, 9]` is both shorter than 4 bytes
and has declared radiotap length 9 exceeding its buffer; it decodes to
`none`, with the checked decoder agreeing. -/
theorem frame_decoder_total_and_safe_witness :
    ([0, 0, 9] : List Nat).length < 4 ∧
    ([0, 0, 9] : List Nat).length <
      leU16 (byteAt [0, 0, 9] 2) (byteAt [0, 0, 9] 3) ∧
    parse_radiotap_and_frame [0, 0, 9] = Option.none ∧
    parse_radiotap_and_frame_chk [0, 0, 9] =
      some (parse_radiotap_and_frame [0, 0, 9]) :=
  ⟨by decide, by decide,
   frame_decoder_total_and_safe.2.1 [0, 0, 9] (by decide),
   frame_decoder_total_and_safe.1 [0, 0, 9]⟩


end Radioscope
